import Mathlib

/-!
Shallow embedding of the hybrid query router and answer-composition policy
of the Dr.Doc repository, covering `backend/agent_rag_interface.py`
(classifier, dual retriever invocation, interface-level composer, public
string boundary `query_for_agent`) and `backend/app_agno_hybrid.py`
(app-level composer `_create_hybrid_response` with contradiction
suppression).  Confidences are embedded as rationals (the Python floats
involved — 0.0, 0.5, 0.8, 0.9 — are exactly representable, and the code
only compares and maxes them).  Python string primitives (`str.lower`,
`str.strip`, `in`, `len`, `re.search` over literal-pieces patterns) are
embedded as executable functions over the underlying character lists.
-/

namespace DrDoc

/-! ### Python string primitives -/

/-- Python `str.lower` (the repository only lowercases ASCII text). -/
def lowerStr (s : String) : String := String.mk (s.data.map Char.toLower)

/-- Whitespace stripped by Python `str.strip` (the forms occurring here). -/
def isSpaceChar (c : Char) : Bool := c = ' ' || c = '\t' || c = '\n' || c = '\r'

/-- Python `str.strip`. -/
def stripStr (s : String) : String :=
  String.mk (((s.data.dropWhile isSpaceChar).reverse.dropWhile isSpaceChar).reverse)

/-- Python `len` on a string (number of code points). -/
def strLen (s : String) : Nat := s.data.length

/-- Substring test on character lists (Python `pat in s`). -/
def listContainsSub (pat : List Char) : List Char → Bool
  | [] => pat.isEmpty
  | c :: t => pat.isPrefixOf (c :: t) || listContainsSub pat t

/-- Python `pat in s` for strings. -/
def containsSub (pat s : String) : Bool := listContainsSub pat.data s.data

/-!
### `re.search` for the classifier's patterns

Every pattern in `_detect_query_type` is a sequence of literal pieces
joined by `.*` (e.g. `what.*error.*code`).  `re.search` succeeds iff the
pieces occur in order, where the gaps matched by `.*` contain no newline
(`.` does not match `\n`), while the text before the first piece is
unconstrained.
-/

/-- Match pieces in order from the current position on, each gap
    (matched by `.*`) free of newlines.  Structural recursion on a fuel
    counter so the function evaluates by kernel reduction; every
    recursive call shrinks `s.length + ps.length`, so any fuel above
    that sum never runs out. -/
def matchTail : Nat → List Char → List (List Char) → Bool
  | _, _, [] => true
  | _, [], ps => ps.all List.isEmpty
  | 0, _ :: _, _ :: _ => false
  | fuel + 1, c :: t, p :: ps =>
      (p.isPrefixOf (c :: t) && matchTail fuel ((c :: t).drop p.length) ps)
      || (c != '\n' && matchTail fuel t (p :: ps))

/-- `re.search` for a literal-pieces pattern: the first piece may start
    anywhere in the text. -/
def matchStart : Nat → List Char → List (List Char) → Bool
  | _, _, [] => true
  | _, [], ps => ps.all List.isEmpty
  | 0, _ :: _, _ :: _ => false
  | fuel + 1, c :: t, p :: ps =>
      (p.isPrefixOf (c :: t) && matchTail fuel ((c :: t).drop p.length) ps)
      || matchStart fuel t (p :: ps)

/-- `re.search(pattern, s)` where `pattern` is given by its literal pieces. -/
def reSearch (pieces : List String) (s : String) : Bool :=
  matchStart (s.data.length + pieces.length + 1) s.data (pieces.map String.data)

/-! ### Python number formatting (used only inside rendered text) -/

/-- Python `"%.1f"` on a nonnegative rational. -/
def format1f (q : ℚ) : String :=
  let n : Int := (q * 10 + 1/2).floor
  toString (n / 10) ++ "." ++ toString (n % 10).toNat

/-- Python `"%.2f"` on a nonnegative rational. -/
def format2f (q : ℚ) : String :=
  let n : Int := (q * 100 + 1/2).floor
  let r := (n % 100).toNat
  toString (n / 100) ++ "." ++ (if r < 10 then "0" ++ toString r else toString r)

/-- Python `"%.1%"` (percentage with one decimal) on a nonnegative rational. -/
def formatPercent1 (q : ℚ) : String := format1f (q * 100) ++ "%"

/-! ### Data model of `agent_rag_interface.py` -/

/-- `QueryType` enum. -/
inductive QueryType where
  | rag
  | metta
  | hybrid
  | auto
deriving DecidableEq

/-- A MeTTa fact record.  Python uses a dict probed for the keys
    `pattern`, `flow_type`, `concept`, `type`; each becomes an optional
    field (`ftype` stands for the reserved-looking key `type`). -/
structure Fact where
  pattern : Option String := none
  flow_type : Option String := none
  concept : Option String := none
  ftype : Option String := none
deriving DecidableEq

/-- A semantic citation as read by `_create_hybrid_answer`
    (`source.get('source', 'Unknown')`, `source.get('score', 0)`). -/
structure RagSource where
  source : Option String := none
  score : Option ℚ := none
deriving DecidableEq

/-- The `metta_details` metadata record. -/
structure MettaDetails where
  factsFound : Nat
  confidence : ℚ
deriving DecidableEq

/-- The `rag_details` metadata record. -/
structure RagDetails where
  sourcesFound : Nat
  contextUsed : Nat
deriving DecidableEq

/-- The metadata dict keys written by the query paths (the caller-side
    stamps `user_id`/`context`/`timestamp` are ambient telemetry added
    by the timing wrapper and carry no policy content). -/
structure Metadata where
  error : Option String := none
  mettaDetails : Option MettaDetails := none
  ragDetails : Option RagDetails := none
deriving DecidableEq

/-- The `QueryResult` dataclass.  `response_time` is set to `0.0` by the
    query paths themselves (the wall-clock overwrite by the caller is
    ambient). -/
structure QueryResult where
  answer : String
  sources : List RagSource
  facts : List Fact
  query_type : QueryType
  confidence : ℚ
  reasoning : String
  model_source : String
  response_time : ℚ
  metadata : Metadata
deriving DecidableEq

/-- Raw dict returned by the semantic collaborator `agno_rag.query`, as
    probed by `_query_rag_only` (`.get('answer', ...)`, `.get('sources', [])`,
    `.get('model_source', 'unknown')`, `.get('context_used', 0)`). -/
structure RagRaw where
  answer : Option String := none
  sources : List RagSource := []
  model_source : Option String := none
  context_used : Option Nat := none

/-- The two retrieval collaborators.  A call either returns a raw result
    or raises (modelled as `Except.error` carrying `str(e)`). -/
structure Collaborators where
  ragQuery : String → Except String RagRaw
  mettaQuery : String → Except String (List Fact)

/-! ### Retriever invocation (`_query_rag_only`, `_query_metta_only`) -/

/-- Context enhancement at the top of `_query_rag_only` (Python's
    `if context:` treats an empty string as absent). -/
def enhancedQuestion (question : String) (context : Option String) : String :=
  match context with
  | some c => if c = "" then question else "Context: " ++ c ++ "\n\nQuestion: " ++ question
  | none => question

/-- `_query_rag_only`. -/
def queryRagOnly (C : Collaborators) (question : String) (context : Option String) : QueryResult :=
  match C.ragQuery (enhancedQuestion question context) with
  | .ok raw =>
      { answer := raw.answer.getD "No answer available"
        sources := raw.sources
        facts := []
        query_type := .rag
        confidence := 0.8
        reasoning := "Used RAG system for comprehensive answer"
        model_source := raw.model_source.getD "unknown"
        response_time := 0
        metadata := { ragDetails := some { sourcesFound := raw.sources.length,
                                           contextUsed := raw.context_used.getD 0 } } }
  | .error e =>
      { answer := "Error querying RAG system: " ++ e
        sources := []
        facts := []
        query_type := .rag
        confidence := 0
        reasoning := "RAG query failed"
        model_source := "error"
        response_time := 0
        metadata := { error := some e } }

/-- One bullet line of the MeTTa answer (`'pattern' in result` /
    `'concept' in result` probing with nested `.get` defaults). -/
def factLine (f : Fact) : Option String :=
  if f.pattern.isSome then
    some ("• **" ++ f.pattern.getD "" ++ "**: " ++ f.flow_type.getD (f.concept.getD "N/A"))
  else if f.concept.isSome then
    some ("• **" ++ f.concept.getD "" ++ "**: " ++ f.ftype.getD "N/A")
  else none

/-- The `## MeTTa Knowledge Base Results` block built by `_query_metta_only`. -/
def formatMettaAnswer (facts : List Fact) : String :=
  String.intercalate "\n" ("## MeTTa Knowledge Base Results" :: facts.filterMap factLine)

/-- `_query_metta_only`.  The `not self.metta_kb` guard is folded into
    `enableMetta` (initialization clears `enable_metta` whenever the
    knowledge base failed to load).  The `context` parameter is unused in
    the source body. -/
def queryMettaOnly (enableMetta : Bool) (C : Collaborators) (question : String) : QueryResult :=
  if ¬ enableMetta then
    { answer := "MeTTa system not available"
      sources := []
      facts := []
      query_type := .metta
      confidence := 0
      reasoning := "MeTTa system not enabled or available"
      model_source := "none"
      response_time := 0
      metadata := { error := some "MeTTa not available" } }
  else
    match C.mettaQuery question with
    | .ok results =>
        let confidence : ℚ := if results ≠ [] then 0.9 else 0
        { answer := if results ≠ [] then formatMettaAnswer results
                    else "No specific facts found in MeTTa knowledge base for this question."
          sources := []
          facts := results
          query_type := .metta
          confidence := confidence
          reasoning := "Used MeTTa knowledge base for precise facts"
          model_source := "metta"
          response_time := 0
          metadata := { mettaDetails := some { factsFound := results.length,
                                               confidence := confidence } } }
    | .error e =>
        { answer := "Error querying MeTTa system: " ++ e
          sources := []
          facts := []
          query_type := .metta
          confidence := 0
          reasoning := "MeTTa query failed"
          model_source := "error"
          response_time := 0
          metadata := { error := some e } }

/-! ### Interface-level composer (`_create_hybrid_answer`, `_query_hybrid`) -/

/-- The citation entries selected for rendering: `rag_result.sources[:3]`. -/
def citationEntries (sources : List RagSource) : List RagSource := sources.take 3

/-- The enumerated citation lines (`enumerate(sources[:3], 1)`). -/
def citationLines (sources : List RagSource) : List String :=
  List.mapIdx
    (fun i s => "**" ++ toString (i + 1) ++ ". " ++ s.source.getD "Unknown"
      ++ "** (relevance: " ++ formatPercent1 (s.score.getD 0) ++ ")")
    (citationEntries sources)

/-- `_create_hybrid_answer`. -/
def createHybridAnswer (mettaResult ragResult : QueryResult) : String :=
  let ragContent := stripStr ragResult.answer
  String.intercalate "\n"
    ((if mettaResult.answer ≠ "" then [mettaResult.answer] else [])
     ++ (if ragContent ≠ "" ∧ 100 < strLen ragContent then
           ["\n---\n", "## Additional Context", ragContent]
         else [])
     ++ (if ragResult.sources ≠ [] then
           ["\n---\n", "## Documentation Sources"] ++ citationLines ragResult.sources
         else []))

/-- The combine step of `_query_hybrid` (lines 284–310): the branch picks
    answer/confidence/reasoning, the shared return always takes `sources`
    from the semantic result and `facts` from the symbolic result. -/
def hybridCompose (mettaResult ragResult : QueryResult) : QueryResult :=
  if 0.5 < mettaResult.confidence ∧ mettaResult.facts ≠ [] then
    { answer := createHybridAnswer mettaResult ragResult
      sources := ragResult.sources
      facts := mettaResult.facts
      query_type := .hybrid
      confidence := max mettaResult.confidence ragResult.confidence
      reasoning := "Combined MeTTa facts (confidence: "
        ++ format2f mettaResult.confidence ++ ") with RAG context"
      model_source := ragResult.model_source
      response_time := 0
      metadata := { mettaDetails := mettaResult.metadata.mettaDetails,
                    ragDetails := ragResult.metadata.ragDetails } }
  else
    { answer := if mettaResult.facts ≠ [] then
                  ragResult.answer ++ ("\n\n## Additional Facts\n" ++ mettaResult.answer)
                else ragResult.answer
      sources := ragResult.sources
      facts := mettaResult.facts
      query_type := .hybrid
      confidence := ragResult.confidence
      reasoning := "Used RAG as primary (confidence: "
        ++ format2f ragResult.confidence ++ "), MeTTa provided additional context"
      model_source := ragResult.model_source
      response_time := 0
      metadata := { mettaDetails := mettaResult.metadata.mettaDetails,
                    ragDetails := ragResult.metadata.ragDetails } }

/-- `_query_hybrid`: query both collaborators, then combine.  (The outer
    `try` cannot fire in the embedding: both inner paths catch their own
    collaborator exceptions.) -/
def queryHybrid (enableMetta : Bool) (C : Collaborators) (question : String)
    (context : Option String) : QueryResult :=
  hybridCompose (queryMettaOnly enableMetta C question) (queryRagOnly C question context)

/-! ### Classifier (`_detect_query_type`) -/

/-- The `metta_patterns` regex list, each pattern given by its literal
    pieces (they are all of the form `lit.*lit(.*lit)?`). -/
def mettaPatterns : List (List String) :=
  [["what", "error", "code"],
   ["what", "rate", "limit"],
   ["what", "parameters"],
   ["list", "endpoints"],
   ["what", "tier"],
   ["how", "many", "requests"],
   ["what", "authentication"],
   ["what", "endpoint", "supports"],
   ["what", "status", "code"],
   ["what", "slippage"],
   ["what", "gas"],
   ["what", "fee"],
   ["what", "oauth"],
   ["what", "security"],
   ["what", "performance"],
   ["what", "monitoring"]]

/-- Whether some fact-intent pattern fires on the lower-cased question. -/
def matchesMettaPattern (question : String) : Bool :=
  mettaPatterns.any (fun p => reSearch p (lowerStr question))

/-- `_detect_query_type`.  The source loops over the patterns and returns
    on the first hit; since every hit yields the same outcome, this is
    `any` over the list. -/
def detectQueryType (enableMetta : Bool) (question : String) : QueryType :=
  if matchesMettaPattern question then
    if enableMetta then QueryType.hybrid else QueryType.rag
  else QueryType.rag

/-! ### Strategy resolution and dispatch (`AgentRAGInterface.query`) -/

/-- Lines 104–106 of `query`: auto-detection runs only for `AUTO`. -/
def resolveStrategy (enableMetta : Bool) (question : String) (queryType : QueryType) : QueryType :=
  if queryType = QueryType.auto then detectQueryType enableMetta question else queryType

/-- The dispatch chain of `query` (lines 110–118); the trailing `else`
    branch raises `ValueError`, modelled as `Except.error`. -/
def dispatchStrategy (enableMetta : Bool) (C : Collaborators) (question : String)
    (context : Option String) : QueryType → Except String QueryResult
  | QueryType.rag => .ok (queryRagOnly C question context)
  | QueryType.metta => .ok (queryMettaOnly enableMetta C question)
  | QueryType.hybrid => .ok (queryHybrid enableMetta C question context)
  | QueryType.auto => .error "Unknown query type: auto"

/-- `AgentRAGInterface.query` (without the ambient wall-clock stamping). -/
def query (enableMetta : Bool) (C : Collaborators) (question : String)
    (queryType : QueryType) (context : Option String) : Except String QueryResult :=
  dispatchStrategy enableMetta C question context (resolveStrategy enableMetta question queryType)

/-! ### Public string boundary (`query_for_agent`) -/

/-- The string-to-enum conversion in `query_for_agent` (lines 423–430):
    the accumulator starts at `AUTO` and is only overwritten for the
    three recognized strings. -/
def strToQueryType (s : String) : QueryType :=
  if lowerStr s = "rag" then QueryType.rag
  else if lowerStr s = "metta" then QueryType.metta
  else if lowerStr s = "hybrid" then QueryType.hybrid
  else QueryType.auto

/-- `query_for_agent` (the trailing dict serialization is shape-preserving
    and omitted). -/
def queryForAgent (enableMetta : Bool) (C : Collaborators) (question : String)
    (queryTypeStr : String) (context : Option String) : Except String QueryResult :=
  query enableMetta C question (strToQueryType queryTypeStr) context

end DrDoc

namespace AgnoHybrid

open DrDoc (lowerStr stripStr strLen containsSub format1f Fact)

/-! ### Data model of the app-level composer (`app_agno_hybrid.py`) -/

/-- A citation dict as read by `_create_hybrid_response`
    (`file_path`, `score`, `heading`). -/
structure AppSource where
  file_path : Option String := none
  score : Option ℚ := none
  heading : Option String := none
deriving DecidableEq

/-- The slice of the `metta_result` dict the composer reads (`answer`;
    the `confidence`/`facts` gate lives in the caller `query`, which only
    invokes the composer when the symbolic result is primary). -/
structure AppMettaResult where
  answer : String
deriving DecidableEq

/-- The slice of the `rag_result` dict the composer reads. -/
structure AppRagResult where
  answer : String := ""
  sources : List AppSource := []
deriving DecidableEq

/-! ### Contradiction suppression (`_create_hybrid_response`) -/

/-- The fixed deny-list `contradictory_phrases`. -/
def contradictoryPhrases : List String :=
  ["does not support oauth", "oauth is not supported", "no oauth flows",
   "does not have oauth", "oauth is not available", "does not mention oauth at all"]

/-- The extra phrases checked when the MeTTa answer mentions oauth. -/
def oauthDenyPhrases : List String :=
  ["no oauth", "doesn\x27t support oauth", "oauth not supported"]

/-- The `is_contradictory` computation (base deny-list scan plus the
    topic-gated extra scan); `rag_lower` is inlined. -/
def isContradictory (mettaAnswer ragContent : String) : Bool :=
  (contradictoryPhrases.any fun p => containsSub p (lowerStr ragContent))
  || (containsSub "oauth" (lowerStr mettaAnswer)
      && (oauthDenyPhrases.any fun p => containsSub p (lowerStr ragContent)))

/-! ### App-level response assembly -/

/-- Leading part: the MeTTa answer when non-empty (`if metta_result.get('answer')`). -/
def mettaChunk (m : AppMettaResult) : List String :=
  if m.answer ≠ "" then [m.answer] else []

/-- The one-line note substituted for contradictory semantic text. -/
def infoSourceNote : String :=
  "The above information is based on structured knowledge base facts. For additional context or implementation details, please refer to the official documentation."

/-- Middle part: the semantic text as `## Additional Context` when
    non-trivial and not contradictory, else the `## Information Source`
    disclaimer; nothing when trivial. -/
def contextChunk (m : AppMettaResult) (ragContent : String) : List String :=
  if ragContent ≠ "" ∧ 100 < strLen ragContent then
    if isContradictory m.answer ragContent then
      ["\n---\n", "## Information Source", infoSourceNote]
    else
      ["\n---\n", "## Additional Context", ragContent]
  else []

/-- The citation entries selected for rendering: `rag_result['sources'][:5]`. -/
def appCitationEntries (sources : List AppSource) : List AppSource := sources.take 5

/-- File-name rendering for one citation
    (`source.get('file_path', '').split('/')[-1] if source.get('file_path') else 'Unknown'`). -/
def appSourceName (s : AppSource) : String :=
  match s.file_path with
  | some fp => if fp = "" then "Unknown" else (fp.splitOn "/").getLastD ""
  | none => "Unknown"

/-- The enumerated citation lines (main line plus optional heading line). -/
def appSourceLines (sources : List AppSource) : List String :=
  (List.mapIdx
    (fun i s =>
      ("**" ++ toString (i + 1) ++ ". " ++ appSourceName s
        ++ "** (relevance: " ++ format1f (s.score.getD 0 * 100) ++ "%)")
      :: (match s.heading with
          | some h => if h = "" then [] else ["   📄 Section: " ++ h]
          | none => []))
    (appCitationEntries sources)).flatten

/-- Trailing part: the `## Documentation Sources` section, present
    whenever the semantic collaborator returned citations. -/
def sourcesChunk (sources : List AppSource) : List String :=
  if sources ≠ [] then
    ["\n---\n", "## Documentation Sources", "The following documentation files were consulted:"]
      ++ appSourceLines sources
      ++ ["", "*These sources provide additional context and implementation details for the topics covered above.*"]
  else []

/-- The `response_parts` list built by `_create_hybrid_response`. -/
def createHybridResponseParts (m : AppMettaResult) (r : AppRagResult) : List String :=
  mettaChunk m ++ contextChunk m (stripStr r.answer) ++ sourcesChunk r.sources

/-- `_create_hybrid_response`: `"\n".join(response_parts)`. -/
def createHybridResponse (m : AppMettaResult) (r : AppRagResult) : String :=
  String.intercalate "\n" (createHybridResponseParts m r)

end AgnoHybrid

/-! ### Concrete fixtures used by witnesses and counterexamples -/

namespace DrDoc

/-- A concrete MeTTa fact, as in the repository's OAuth example. -/
def sampleFact : Fact := { pattern := some "authorization_code", flow_type := some "oauth" }

/-- A concrete raw semantic-collaborator result. -/
def sampleRaw : RagRaw := { answer := some "A RAG answer.", model_source := some "openai" }

/-- Collaborators that both succeed. -/
def sampleCollaborators : Collaborators :=
  { ragQuery := fun _ => .ok sampleRaw, mettaQuery := fun _ => .ok [sampleFact] }

/-- Collaborators that both raise (modelling thrown exceptions). -/
def raisingCollaborators (e1 e2 : String) : Collaborators :=
  { ragQuery := fun _ => .error e1, mettaQuery := fun _ => .error e2 }

/-- A symbolic result below the 0.5 threshold but carrying one fact. -/
def lowConfMetta : QueryResult :=
  { answer := "metta note", sources := [], facts := [sampleFact], query_type := .metta,
    confidence := 0, reasoning := "", model_source := "metta", response_time := 0,
    metadata := {} }

/-- A semantic result with the default 0.8 confidence. -/
def semPrimaryRag : QueryResult :=
  { answer := "The RAG answer.", sources := [], facts := [], query_type := .rag,
    confidence := 0.8, reasoning := "", model_source := "openai", response_time := 0,
    metadata := {} }

/-- A citation list in increasing relevance order. -/
def unsortedSources : List RagSource :=
  [{ source := some "a.md", score := some (1/10) },
   { source := some "b.md", score := some (9/10) }]

/-- A citation list in non-increasing relevance order. -/
def sortedSources : List RagSource :=
  [{ source := some "a.md", score := some (9/10) },
   { source := some "b.md", score := some (1/2) },
   { source := some "c.md", score := some (1/2) },
   { source := some "d.md", score := some (1/10) }]

end DrDoc

namespace AgnoHybrid

/-- A symbolic answer asserting OAuth support. -/
def appMettaSample : AppMettaResult :=
  { answer := "OAuth 2.0 flows supported: authorization_code" }

/-- A semantic result longer than 100 characters containing the
    deny-listed phrase `oauth is not supported`. -/
def appRagSample : AppRagResult :=
  { answer := "OAuth is not supported by this API according to the documentation, which focuses on key-based authentication methods." }

/-- An app-level citation list in non-increasing relevance order. -/
def sortedAppSources : List AppSource :=
  [{ file_path := some "docs/a.md", score := some (4/5) },
   { file_path := some "docs/b.md", score := some (1/5) }]

end AgnoHybrid

open DrDoc AgnoHybrid

/-! ### Helper lemmas -/

/-- The symbolic retriever reports confidence 0.9 or 0. -/
theorem queryMettaOnly_confidence (em : Bool) (C : Collaborators) (q : String) :
    (queryMettaOnly em C q).confidence = 0.9 ∨ (queryMettaOnly em C q).confidence = 0 := by
  unfold queryMettaOnly
  cases em
  · simp
  · cases h : C.mettaQuery q with
    | ok results => cases results <;> simp [h]
    | error e => simp [h]

/-- The semantic retriever reports confidence 0.8 or 0. -/
theorem queryRagOnly_confidence (C : Collaborators) (q : String) (ctx : Option String) :
    (queryRagOnly C q ctx).confidence = 0.8 ∨ (queryRagOnly C q ctx).confidence = 0 := by
  unfold queryRagOnly
  cases h : C.ragQuery (enhancedQuestion q ctx) <;> simp [h]

/-- Strategy resolution never yields `AUTO`. -/
theorem resolveStrategy_ne_auto (em : Bool) (q : String) (qt : QueryType) :
    resolveStrategy em q qt ≠ QueryType.auto := by
  unfold resolveStrategy
  by_cases h : qt = QueryType.auto
  · rw [if_pos h]
    unfold detectQueryType
    cases matchesMettaPattern q <;> cases em <;> simp
  · rw [if_neg h]; exact h

/-- Dispatch returns a result for every non-`AUTO` strategy. -/
theorem dispatch_ok (em : Bool) (C : Collaborators) (q : String) (ctx : Option String)
    (qt : QueryType) (h : qt ≠ QueryType.auto) :
    Except.isOk (dispatchStrategy em C q ctx qt) = true := by
  cases qt with
  | rag => rfl
  | metta => rfl
  | hybrid => rfl
  | auto => exact absurd rfl h

/-- The substituted disclaimer itself never trips the deny-list. -/
theorem isContradictory_infoSourceNote (ma : String) :
    isContradictory ma infoSourceNote = false := by
  unfold isContradictory
  have h1 : (contradictoryPhrases.any fun p => containsSub p (lowerStr infoSourceNote)) = false := by
    decide
  have h2 : (oauthDenyPhrases.any fun p => containsSub p (lowerStr infoSourceNote)) = false := by
    decide
  rw [h1, h2]
  simp

/-! ### Claim theorems -/

/-- Claim C1: for every hybrid query whose symbolic result has confidence
    above 0.5 and at least one structured fact, the composed confidence
    equals the symbolic confidence, and coincides with the maximum of the
    two source confidences (the symbolic source reports 0.9 when it finds
    facts; the semantic source reports 0.8 on success and 0 on failure). -/
theorem hybrid_primary_confidence (enableMetta : Bool) (C : Collaborators)
    (question : String) (context : Option String)
    (hconf : 0.5 < (queryMettaOnly enableMetta C question).confidence)
    (hfacts : (queryMettaOnly enableMetta C question).facts ≠ []) :
    (queryHybrid enableMetta C question context).confidence
        = (queryMettaOnly enableMetta C question).confidence
    ∧ (queryHybrid enableMetta C question context).confidence
        = max (queryMettaOnly enableMetta C question).confidence
              (queryRagOnly C question context).confidence := by
  have h9 : (queryMettaOnly enableMetta C question).confidence = 0.9 := by
    rcases queryMettaOnly_confidence enableMetta C question with h | h
    · exact h
    · rw [h] at hconf; norm_num at hconf
  have hmax : (queryHybrid enableMetta C question context).confidence
      = max (queryMettaOnly enableMetta C question).confidence
            (queryRagOnly C question context).confidence := by
    unfold queryHybrid hybridCompose
    rw [if_pos ⟨hconf, hfacts⟩]
  refine ⟨?_, hmax⟩
  rw [hmax, h9]
  rcases queryRagOnly_confidence C question context with h | h <;> rw [h] <;> norm_num

/-- Claim C1 witness: a concrete hybrid query where the symbolic source
    finds a fact. -/
theorem hybrid_primary_confidence_witness :
    0.5 < (queryMettaOnly true sampleCollaborators "q").confidence
    ∧ (queryMettaOnly true sampleCollaborators "q").facts ≠ []
    ∧ (queryHybrid true sampleCollaborators "q" none).confidence
        = (queryMettaOnly true sampleCollaborators "q").confidence :=
  ⟨by norm_num [queryMettaOnly, sampleCollaborators],
   by simp [queryMettaOnly, sampleCollaborators],
   (hybrid_primary_confidence true sampleCollaborators "q" none
      (by norm_num [queryMettaOnly, sampleCollaborators])
      (by simp [queryMettaOnly, sampleCollaborators])).1⟩

/-- Claim C2: when the symbolic result has confidence at most 0.5 or no
    facts, the composed confidence equals the semantic confidence, the
    semantic answer leads verbatim, and an `## Additional Facts` section
    is appended iff the symbolic result carries at least one fact. -/
theorem hybrid_fallback_semantic (m r : QueryResult)
    (h : m.confidence ≤ 0.5 ∨ m.facts = []) :
    (hybridCompose m r).confidence = r.confidence
    ∧ (m.facts = [] → (hybridCompose m r).answer = r.answer)
    ∧ (m.facts ≠ [] → (hybridCompose m r).answer
        = r.answer ++ ("\n\n## Additional Facts\n" ++ m.answer)) := by
  have hneg : ¬ (0.5 < m.confidence ∧ m.facts ≠ []) := by
    rcases h with h | h
    · exact fun hc => absurd hc.1 (not_lt.mpr h)
    · exact fun hc => hc.2 h
  unfold hybridCompose
  rw [if_neg hneg]
  refine ⟨rfl, ?_, ?_⟩
  · intro hf
    show (if m.facts ≠ [] then _ else r.answer) = r.answer
    simp [hf]
  · intro hf
    show (if m.facts ≠ [] then r.answer ++ ("\n\n## Additional Facts\n" ++ m.answer)
          else r.answer) = _
    rw [if_pos hf]

/-- Claim C2 witness: a below-threshold symbolic result with one fact. -/
theorem hybrid_fallback_semantic_witness :
    (lowConfMetta.confidence ≤ 0.5 ∨ lowConfMetta.facts = [])
    ∧ (hybridCompose lowConfMetta semPrimaryRag).confidence = semPrimaryRag.confidence
    ∧ (hybridCompose lowConfMetta semPrimaryRag).answer
        = semPrimaryRag.answer ++ ("\n\n## Additional Facts\n" ++ lowConfMetta.answer) :=
  ⟨Or.inl (by norm_num [lowConfMetta]),
   (hybrid_fallback_semantic lowConfMetta semPrimaryRag (Or.inl (by norm_num [lowConfMetta]))).1,
   (hybrid_fallback_semantic lowConfMetta semPrimaryRag
      (Or.inl (by norm_num [lowConfMetta]))).2.2 (by simp [lowConfMetta, sampleFact])⟩

/-- Claim C4: a raising collaborator is caught and converted into a
    zero-confidence result whose answer carries the error message; when
    both collaborators raise, the hybrid query still returns a composed
    result with confidence 0 and a non-empty explanatory answer, and no
    exception escapes (the embedding is total). -/
theorem collaborator_failure_degrades (e1 e2 question : String)
    (context : Option String) (enableMetta : Bool) :
    (queryRagOnly (raisingCollaborators e1 e2) question context).confidence = 0
    ∧ (queryRagOnly (raisingCollaborators e1 e2) question context).answer
        = "Error querying RAG system: " ++ e1
    ∧ (queryMettaOnly true (raisingCollaborators e1 e2) question).confidence = 0
    ∧ (queryMettaOnly true (raisingCollaborators e1 e2) question).answer
        = "Error querying MeTTa system: " ++ e2
    ∧ (queryHybrid enableMetta (raisingCollaborators e1 e2) question context).confidence = 0
    ∧ (queryHybrid enableMetta (raisingCollaborators e1 e2) question context).answer
        = "Error querying RAG system: " ++ e1
    ∧ 0 < ((queryHybrid enableMetta (raisingCollaborators e1 e2) question context).answer).length := by
  have hr : queryRagOnly (raisingCollaborators e1 e2) question context
      = { answer := "Error querying RAG system: " ++ e1, sources := [], facts := [],
          query_type := .rag, confidence := 0, reasoning := "RAG query failed",
          model_source := "error", response_time := 0,
          metadata := { error := some e1 } } := by
    unfold queryRagOnly raisingCollaborators
    rfl
  have hm : ∀ em : Bool,
      (queryMettaOnly em (raisingCollaborators e1 e2) question).confidence = 0
      ∧ (queryMettaOnly em (raisingCollaborators e1 e2) question).facts = [] := by
    intro em
    cases em <;> simp [queryMettaOnly, raisingCollaborators]
  have hlen : 0 < ("Error querying RAG system: " ++ e1).length := by
    rw [String.length_append]
    have : 0 < ("Error querying RAG system: ").length := by decide
    omega
  have hh : (queryHybrid enableMetta (raisingCollaborators e1 e2) question context).confidence = 0
      ∧ (queryHybrid enableMetta (raisingCollaborators e1 e2) question context).answer
        = "Error querying RAG system: " ++ e1 := by
    unfold queryHybrid hybridCompose
    rw [if_neg (by intro hc; exact hc.2 (hm enableMetta).2)]
    rw [hr]
    constructor
    · rfl
    · show (if (queryMettaOnly enableMetta (raisingCollaborators e1 e2) question).facts ≠ []
            then _ else _) = _
      rw [if_neg (by simp [(hm enableMetta).2])]
  refine ⟨?_, ?_, (hm true).1, ?_, hh.1, hh.2, ?_⟩
  · rw [hr]
  · rw [hr]
  · simp [queryMettaOnly, raisingCollaborators]
  · rw [hh.2]; exact hlen

/-- Claim C9: the composer merge is a pure deterministic function of its
    two input results — identical inputs give identical composed answer,
    confidence, facts, sources and reasoning. -/
theorem compose_deterministic (m₁ m₂ r₁ r₂ : QueryResult) (hm : m₁ = m₂) (hr : r₁ = r₂) :
    hybridCompose m₁ r₁ = hybridCompose m₂ r₂
    ∧ (hybridCompose m₁ r₁).answer = (hybridCompose m₂ r₂).answer
    ∧ (hybridCompose m₁ r₁).confidence = (hybridCompose m₂ r₂).confidence
    ∧ (hybridCompose m₁ r₁).facts = (hybridCompose m₂ r₂).facts
    ∧ (hybridCompose m₁ r₁).sources = (hybridCompose m₂ r₂).sources
    ∧ (hybridCompose m₁ r₁).reasoning = (hybridCompose m₂ r₂).reasoning := by
  subst hm; subst hr
  exact ⟨rfl, rfl, rfl, rfl, rfl, rfl⟩

/-- Claim C9 witness: two invocations on the same concrete results. -/
theorem compose_deterministic_witness :
    hybridCompose lowConfMetta semPrimaryRag = hybridCompose lowConfMetta semPrimaryRag :=
  (compose_deterministic lowConfMetta lowConfMetta semPrimaryRag semPrimaryRag rfl rfl).1

/-- Claim C10: regardless of which branch the composer takes, the
    composed `sources` are exactly the semantic result's citations and
    the composed `facts` exactly the symbolic result's facts. -/
theorem hybrid_sources_facts_provenance (m r : QueryResult) :
    (hybridCompose m r).sources = r.sources ∧ (hybridCompose m r).facts = m.facts := by
  unfold hybridCompose
  split
  · exact ⟨rfl, rfl⟩
  · exact ⟨rfl, rfl⟩

/-- Two strings of different lengths differ. -/
theorem strLen_ne {s t : String} (h : strLen s ≠ strLen t) : s ≠ t :=
  fun he => h (he ▸ rfl)

/-- Claim C3: whenever the app-level composer runs with symbolic primary
    and the (longer than 100 characters) semantic text trips the
    contradiction deny-list, the semantic text is not among the composed
    response parts; the `## Information Source` disclaimer line replaces
    the `## Additional Context` block.  The non-collision hypothesis
    rules out the degenerate case of the semantic text literally equalling
    the symbolic answer or one of the rendered source lines. -/
theorem contradiction_suppression (m : AppMettaResult) (r : AppRagResult)
    (hlen : 100 < strLen (stripStr r.answer))
    (hcontra : isContradictory m.answer (stripStr r.answer) = true)
    (hnocollide : stripStr r.answer ∉ mettaChunk m ++ sourcesChunk r.sources) :
    createHybridResponseParts m r
      = mettaChunk m ++ (["\n---\n", "## Information Source", infoSourceNote]
          ++ sourcesChunk r.sources)
    ∧ stripStr r.answer ∉ createHybridResponseParts m r
    ∧ infoSourceNote ∈ createHybridResponseParts m r
    ∧ "## Additional Context" ∉ contextChunk m (stripStr r.answer) := by
  have hne : stripStr r.answer ≠ "" := by
    intro h; rw [h] at hlen; exact absurd hlen (by decide)
  have hctx : contextChunk m (stripStr r.answer)
      = ["\n---\n", "## Information Source", infoSourceNote] := by
    unfold contextChunk
    rw [if_pos ⟨hne, hlen⟩, if_pos hcontra]
  have heq : createHybridResponseParts m r
      = mettaChunk m ++ (["\n---\n", "## Information Source", infoSourceNote]
          ++ sourcesChunk r.sources) := by
    unfold createHybridResponseParts
    rw [hctx, List.append_assoc]
  refine ⟨heq, ?_, ?_, ?_⟩
  · rw [heq]
    intro hmem
    rcases List.mem_append.mp hmem with hA | hBC
    · exact hnocollide (List.mem_append.mpr (Or.inl hA))
    rcases List.mem_append.mp hBC with hB | hC
    · have h5 : stripStr r.answer ≠ "\n---\n" :=
        strLen_ne (by intro h; rw [h] at hlen; exact absurd hlen (by decide))
      have h21 : stripStr r.answer ≠ "## Information Source" :=
        strLen_ne (by intro h; rw [h] at hlen; exact absurd hlen (by decide))
      have hnote : stripStr r.answer ≠ infoSourceNote := by
        intro h
        rw [h, isContradictory_infoSourceNote] at hcontra
        exact Bool.false_ne_true hcontra
      simp only [List.mem_cons, List.not_mem_nil, or_false] at hB
      rcases hB with h | h | h
      · exact h5 h
      · exact h21 h
      · exact hnote h
    · exact hnocollide (List.mem_append.mpr (Or.inr hC))
  · rw [heq]
    exact List.mem_append.mpr (Or.inr (List.mem_append.mpr (Or.inl (by simp))))
  · rw [hctx]
    decide

/-- Claim C3 witness: a concrete OAuth assertion with a deny-listed
    117-character semantic answer. -/
theorem contradiction_suppression_witness :
    100 < strLen (stripStr appRagSample.answer)
    ∧ isContradictory appMettaSample.answer (stripStr appRagSample.answer) = true
    ∧ stripStr appRagSample.answer ∉ mettaChunk appMettaSample ++ sourcesChunk appRagSample.sources
    ∧ (createHybridResponseParts appMettaSample appRagSample
        = mettaChunk appMettaSample
          ++ (["\n---\n", "## Information Source", infoSourceNote]
              ++ sourcesChunk appRagSample.sources)
       ∧ stripStr appRagSample.answer ∉ createHybridResponseParts appMettaSample appRagSample
       ∧ infoSourceNote ∈ createHybridResponseParts appMettaSample appRagSample
       ∧ "## Additional Context" ∉ contextChunk appMettaSample (stripStr appRagSample.answer)) :=
  ⟨by decide, by decide, by decide,
   contradiction_suppression appMettaSample appRagSample (by decide) (by decide) (by decide)⟩

/-- Claim C5: the classifier always terminates with a value — `HYBRID`
    exactly when some fact-intent pattern matches the lower-cased question
    and the symbolic collaborator is enabled, `RAG` (the semantic default)
    when a pattern matches with symbolic disabled, and `RAG` when no
    pattern matches. -/
theorem classifier_total_and_exact (enableMetta : Bool) (question : String) :
    (detectQueryType enableMetta question = QueryType.hybrid
        ↔ matchesMettaPattern question = true ∧ enableMetta = true)
    ∧ (matchesMettaPattern question = true → enableMetta = false →
        detectQueryType enableMetta question = QueryType.rag)
    ∧ (matchesMettaPattern question = false →
        detectQueryType enableMetta question = QueryType.rag)
    ∧ (detectQueryType enableMetta question = QueryType.rag
        ∨ detectQueryType enableMetta question = QueryType.hybrid) := by
  unfold detectQueryType
  cases h : matchesMettaPattern question <;> cases enableMetta <;> simp

/-- Claim C5 witness: one fact-intent question under both collaborator
    settings and one general question. -/
theorem classifier_total_and_exact_witness :
    matchesMettaPattern "What OAuth flows are supported?" = true
    ∧ detectQueryType true "What OAuth flows are supported?" = QueryType.hybrid
    ∧ detectQueryType false "What OAuth flows are supported?" = QueryType.rag
    ∧ detectQueryType true "Tell me about the weather" = QueryType.rag :=
  ⟨by decide,
   (classifier_total_and_exact true "What OAuth flows are supported?").1.mpr ⟨by decide, rfl⟩,
   (classifier_total_and_exact false "What OAuth flows are supported?").2.1 (by decide) rfl,
   (classifier_total_and_exact true "Tell me about the weather").2.2.1 (by decide)⟩

/-- Claim C6 counterexample: the strategy string `"bogus"` is outside the
    recognized set, yet `query_for_agent` does not reject it — the string
    is silently converted to `AUTO` and the query succeeds. -/
theorem unknown_strategy_not_rejected :
    strToQueryType "bogus" = QueryType.auto
    ∧ Except.isOk (queryForAgent true sampleCollaborators "hello" "bogus" none) = true :=
  ⟨by decide, by decide⟩

/-- Claim C6 (amended): a strategy string outside
    {auto, rag, metta, hybrid} is silently defaulted to `AUTO` (hence
    auto-classified), and `query_for_agent` signals no error for any
    strategy string; the `ValueError` rejection inside
    `AgentRAGInterface.query` is unreachable from the string boundary. -/
theorem unknown_strategy_silently_defaults (s : String) (enableMetta : Bool)
    (C : Collaborators) (question : String) (context : Option String) :
    (lowerStr s ≠ "rag" → lowerStr s ≠ "metta" → lowerStr s ≠ "hybrid" →
        strToQueryType s = QueryType.auto)
    ∧ Except.isOk (queryForAgent enableMetta C question s context) = true := by
  constructor
  · intro h1 h2 h3
    unfold strToQueryType
    rw [if_neg h1, if_neg h2, if_neg h3]
  · unfold queryForAgent query
    exact dispatch_ok enableMetta C question context _
      (resolveStrategy_ne_auto enableMetta question (strToQueryType s))

/-- Claim C6 (amended) witness: the unknown strategy string `"Bogus"`. -/
theorem unknown_strategy_silently_defaults_witness :
    (lowerStr "Bogus" ≠ "rag" ∧ lowerStr "Bogus" ≠ "metta" ∧ lowerStr "Bogus" ≠ "hybrid")
    ∧ strToQueryType "Bogus" = QueryType.auto
    ∧ Except.isOk (queryForAgent true sampleCollaborators "hi" "Bogus" none) = true :=
  ⟨⟨by decide, by decide, by decide⟩,
   (unknown_strategy_silently_defaults "Bogus" true sampleCollaborators "hi" none).1
      (by decide) (by decide) (by decide),
   (unknown_strategy_silently_defaults "Bogus" true sampleCollaborators "hi" none).2⟩

/-- Claim C7: a caller-supplied strategy other than `AUTO` bypasses the
    classifier — resolution returns it verbatim (independently of the
    question and of the classifier's inputs) and the query dispatches
    directly on it. -/
theorem explicit_strategy_bypasses_classifier (enableMetta : Bool) (C : Collaborators)
    (question : String) (queryType : QueryType) (context : Option String)
    (h : queryType ≠ QueryType.auto) :
    resolveStrategy enableMetta question queryType = queryType
    ∧ query enableMetta C question queryType context
        = dispatchStrategy enableMetta C question context queryType := by
  have hres : resolveStrategy enableMetta question queryType = queryType := by
    unfold resolveStrategy; rw [if_neg h]
  refine ⟨hres, ?_⟩
  unfold query
  rw [hres]

/-- Claim C7 witness: an explicit `RAG` strategy. -/
theorem explicit_strategy_bypasses_classifier_witness :
    QueryType.rag ≠ QueryType.auto
    ∧ resolveStrategy true "What OAuth flows are supported?" QueryType.rag = QueryType.rag :=
  ⟨by decide,
   (explicit_strategy_bypasses_classifier true sampleCollaborators
      "What OAuth flows are supported?" QueryType.rag none (by decide)).1⟩

/-- Claim C8 counterexample: the composers never reorder citations, so a
    collaborator list in increasing relevance order is rendered in
    increasing order — the claimed unconditional non-increasing order
    fails. -/
theorem citation_order_counterexample :
    ¬ List.Pairwise (fun a b : ℚ => a ≥ b)
        ((citationEntries unsortedSources).map fun s => s.score.getD 0) := by
  intro h
  simp only [citationEntries, unsortedSources, List.take_succ_cons, List.take_nil,
    List.map_cons, List.map_nil, List.pairwise_cons, List.mem_singleton,
    List.mem_cons, List.not_mem_nil] at h
  have h1 := h.1 ((some ((9 : ℚ)/10)).getD 0) (Or.inl rfl)
  norm_num at h1

/-- Claim C8 (amended): every composed answer's enumerated semantic
    citation list contains at most the configured maximum entries (3 in
    the interface-level composer, 5 in the app-level composer), and it is
    non-increasing in relevance score whenever the collaborator's citation
    list is non-increasing (the composer truncates the list but never
    sorts it). -/
theorem citation_cap_and_order_preservation (sources : List RagSource)
    (appSources : List AppSource) :
    (citationEntries sources).length ≤ 3
    ∧ (appCitationEntries appSources).length ≤ 5
    ∧ (List.Pairwise (fun a b : ℚ => a ≥ b) (sources.map fun s => s.score.getD 0) →
        List.Pairwise (fun a b : ℚ => a ≥ b)
          ((citationEntries sources).map fun s => s.score.getD 0))
    ∧ (List.Pairwise (fun a b : ℚ => a ≥ b) (appSources.map fun s => s.score.getD 0) →
        List.Pairwise (fun a b : ℚ => a ≥ b)
          ((appCitationEntries appSources).map fun s => s.score.getD 0)) := by
  refine ⟨?_, ?_, ?_, ?_⟩
  · simp [citationEntries, List.length_take]
  · simp [appCitationEntries, List.length_take]
  · intro h
    have hmt : ((sources.take 3).map fun s => s.score.getD 0)
        = (sources.map fun s => s.score.getD 0).take 3 := by
      simp [List.map_take]
    show List.Pairwise _ ((sources.take 3).map fun s => s.score.getD 0)
    rw [hmt]
    exact List.Pairwise.sublist (List.take_sublist _ _) h
  · intro h
    have hmt : ((appSources.take 5).map fun s => s.score.getD 0)
        = (appSources.map fun s => s.score.getD 0).take 5 := by
      simp [List.map_take]
    show List.Pairwise _ ((appSources.take 5).map fun s => s.score.getD 0)
    rw [hmt]
    exact List.Pairwise.sublist (List.take_sublist _ _) h

/-- Claim C8 (amended) witness: concrete non-increasing citation lists at
    both levels. -/
theorem citation_cap_and_order_preservation_witness :
    List.Pairwise (fun a b : ℚ => a ≥ b) (sortedSources.map fun s => s.score.getD 0)
    ∧ List.Pairwise (fun a b : ℚ => a ≥ b)
        ((citationEntries sortedSources).map fun s => s.score.getD 0)
    ∧ (citationEntries sortedSources).length ≤ 3
    ∧ List.Pairwise (fun a b : ℚ => a ≥ b) (sortedAppSources.map fun s => s.score.getD 0)
    ∧ List.Pairwise (fun a b : ℚ => a ≥ b)
        ((appCitationEntries sortedAppSources).map fun s => s.score.getD 0) := by
  have hp1 : List.Pairwise (fun a b : ℚ => a ≥ b)
      (sortedSources.map fun s => s.score.getD 0) := by
    norm_num [sortedSources, List.pairwise_cons]
  have hp2 : List.Pairwise (fun a b : ℚ => a ≥ b)
      (sortedAppSources.map fun s => s.score.getD 0) := by
    norm_num [sortedAppSources, List.pairwise_cons]
  exact ⟨hp1,
    (citation_cap_and_order_preservation sortedSources sortedAppSources).2.2.1 hp1,
    (citation_cap_and_order_preservation sortedSources sortedAppSources).1,
    hp2,
    (citation_cap_and_order_preservation sortedSources sortedAppSources).2.2.2 hp2⟩
